import Mathlib

/-!
Verification of the AMD Sensor Fusion Hub HID client
(`src/amd-sfh-client.c`): sensor catalog, device factory
(`amd_sfh_hid_probe`), lifecycle manager (`amd_sfh_client_init` /
`amd_sfh_client_deinit`).

External collaborators (the Linux HID core, `devm_kzalloc`,
`get_descriptor_size`, the PCI-side sensor-mask read) are modelled by an
explicit environment `ProbeEnv` that decides the outcome of each external
call; diagnostics and resource events are recorded in an event trace.
Pointers are modelled by `Ptr` (`null`, error-encoded pointer, or a valid
device), so that the `IS_ERR` / NULL distinction of the C code is visible.
-/

namespace AmdSfh

/-- Modelled from the spec: the sensor-kind enumeration lives in a header
(`amd-sfh-pci.h`) that is not among the given sources.  The spec (§3) fixes
four kinds {Accelerometer, Gyroscope, Magnetometer, AmbientLight} used as
catalog keys; each kind gets a distinct index. -/
def ACCEL_IDX : Nat := 0

/-- Gyroscope sensor index (see `ACCEL_IDX`). -/
def GYRO_IDX : Nat := 1

/-- Magnetometer sensor index (see `ACCEL_IDX`). -/
def MAG_IDX : Nat := 2

/-- Ambient-light sensor index (see `ACCEL_IDX`). -/
def ALS_IDX : Nat := 19

/-- Modelled from the spec: `SensorMask` is a bit-set over SensorKind (§3);
each kind owns the bit at its sensor index.  The mask macros live in the
missing header `amd-sfh-pci.h`. -/
def ACCEL_MASK : Nat := 2 ^ ACCEL_IDX

/-- Gyroscope mask bit (see `ACCEL_MASK`). -/
def GYRO_MASK : Nat := 2 ^ GYRO_IDX

/-- Magnetometer mask bit (see `ACCEL_MASK`). -/
def MAGNO_MASK : Nat := 2 ^ MAG_IDX

/-- Ambient-light mask bit (see `ACCEL_MASK`). -/
def ALS_MASK : Nat := 2 ^ ALS_IDX

/-- Modelled from the spec: the registry is a fixed-size array with one slot
per known sensor kind (§3), hence capacity 4.  The constant itself is in the
missing header `amd-sfh.h`. -/
def AMD_SFH_MAX_SENSORS : Nat := 4

/-- Vendor id constant from `amd-sfh-client.c` line 20. -/
def AMD_SFH_HID_VENDOR : Nat := 0x3fe

/-- Product id constant from `amd-sfh-client.c` line 21. -/
def AMD_SFH_HID_PRODUCT : Nat := 0x0001

/-- Version constant from `amd-sfh-client.c` line 22. -/
def AMD_SFH_HID_VERSION : Nat := 0x0001

/-- Physical-location string from `amd-sfh-client.c` line 23. -/
def AMD_SFH_PHY_DEV : String := "AMD Sensor Fusion Hub (PCIe)"

/-- Linux header constant `BUS_I2C` (external `linux/input.h`). -/
def BUS_I2C : Nat := 0x18

/-- Linux header constant `HID_GROUP_SENSOR_HUB` (external `linux/hid.h`). -/
def HID_GROUP_SENSOR_HUB : Nat := 0x0002

/-- Linux header constant `HID_TYPE_OTHER` (external `linux/hid.h`). -/
def HID_TYPE_OTHER : Nat := 0

/-- Capacity of the `name` field of the external `struct hid_device`
(`char name[128]` in `linux/hid.h`). -/
def HID_NAME_SIZE : Nat := 128

/-- Capacity of the `phys` field of the external `struct hid_device`
(`char phys[64]` in `linux/hid.h`). -/
def HID_PHYS_SIZE : Nat := 64

/-- The underlying PCI device, an opaque non-owning back-reference. -/
structure PciDev where
  devId : Nat
deriving DecidableEq, Repr

/-- `struct amd_sfh_hid_data`: the driver data attached to a HID device.
The circular back-pointer `hid_data->hid` is not modelled. -/
structure HidData where
  sensor_idx : Nat
  pci_dev : PciDev
  cpu_addr : Option Nat
  report_size : Nat
  report_buf : List Nat
deriving DecidableEq, Repr

/-- The external `struct hid_device`, restricted to the fields the client
writes.  A freshly allocated device is zero-filled. -/
structure HidDevice where
  bus : Nat
  group : Nat
  vendor : Nat
  product : Nat
  version : Nat
  hid_type : Nat
  ll_driver_set : Bool
  name : String
  phys : String
  driver_data : Option HidData
deriving DecidableEq, Repr

/-- A C pointer to a `struct hid_device`: NULL, an error-encoded pointer
(`ERR_PTR`), or a pointer to a live device. -/
inductive Ptr where
  | null : Ptr
  | errPtr : Int → Ptr
  | valid : HidDevice → Ptr
deriving DecidableEq, Repr

/-- Observable events of one run: external calls, diagnostics, resource
allocation and release. -/
inductive Event where
  | hidAllocate : Bool → Event
  | pciErr : String → Event
  | hidWarn : String → Event
  | hidErr : String → Event
  | devmAlloc : Bool → Event
  | getDescSize : Int → Event
  | hidAdd : Int → Event
  | hidDestroy : Ptr → Event
deriving DecidableEq, Repr

/-- Outcome of each external call made during one `amd_sfh_hid_probe` run:
whether `hid_allocate_device` succeeds, whether the two `devm_kzalloc`
calls succeed, the value returned by `get_descriptor_size` (negative means
failure), and the value returned by `hid_add_device` (non-zero means
failure). -/
structure ProbeEnv where
  hidAllocOk : Bool
  hidDataAllocOk : Bool
  descriptorSize : Int
  reportBufAllocOk : Bool
  addDeviceRc : Int
deriving DecidableEq, Repr

/-- `struct amd_sfh_data`: per-unit driver data.  The registry invariant
keeps `sensors` at length `AMD_SFH_MAX_SENSORS`. -/
structure AmdSfhData where
  pci_dev : PciDev
  sensors : List Ptr
deriving DecidableEq, Repr

/-- A zero-filled `struct hid_device` as returned by a successful
`hid_allocate_device`. -/
def freshHidDevice : HidDevice :=
  { bus := 0, group := 0, vendor := 0, product := 0, version := 0
    hid_type := 0, ll_driver_set := false, name := "", phys := ""
    driver_data := none }

/-- The external `hid_allocate_device`: returns a fresh zeroed device, or an
error pointer (`ERR_PTR(-ENOMEM)`) on failure — never NULL. -/
def hid_allocate_device (env : ProbeEnv) : Ptr :=
  if env.hidAllocOk then Ptr.valid freshHidDevice else Ptr.errPtr (-12)

/-- The Linux `IS_ERR` test: true exactly on error-encoded pointers. -/
def IS_ERR : Ptr → Bool
  | Ptr.errPtr _ => true
  | _ => false

/-- The Linux `strscpy dst src size`: copies at most `size - 1` characters
and NUL-terminates.  Returns the copied string together with the C return
value: the copied length on success, `-E2BIG` (= -7) when the source did not
fit (including `size = 0`). -/
def strscpy (size : Nat) (src : String) : String × Int :=
  if size = 0 then ("", -7)
  else if src.length < size then (src, (src.length : Int))
  else (src.take (size - 1), -7)

/-- The comparison `rc >= size` at `amd-sfh-client.c` lines 80 and 84:
`rc` is a C `int`, `sizeof(...)` a `size_t`, so `rc` is converted to the
unsigned 64-bit type before comparing (a negative `rc` becomes huge and the
test fires). -/
def size_t_ge (rc : Int) (size : Nat) : Bool :=
  decide ((size : Nat) ≤ (rc % (2 ^ 64 : Int)).toNat)

/-- `amd_sfh_get_sensor_name` (`amd-sfh-client.c` lines 31-45): total lookup
of a sensor's display name with a defensive default. -/
def amd_sfh_get_sensor_name (sensor_idx : Nat) : String :=
  if sensor_idx = ACCEL_IDX then "accelerometer"
  else if sensor_idx = GYRO_IDX then "gyroscope"
  else if sensor_idx = MAG_IDX then "magnetometer"
  else if sensor_idx = ALS_IDX then "ambient light sensor"
  else "unknown sensor type"

/-- `amd_sfh_hid_probe` (`amd-sfh-client.c` lines 55-125).  `nameSize` and
`physSize` are the capacities of the external identity record's `name` and
`phys` fields (`HID_NAME_SIZE` / `HID_PHYS_SIZE` in the deployed build).
Returns the pointer result of the C function together with the event trace.
Every failure path after a successful allocation runs
`hid_destroy_device` (the `destroy_hid_device` label), which also releases
the device-managed (`devm`) allocations hanging off the device. -/
def amd_sfh_hid_probe (nameSize physSize : Nat) (env : ProbeEnv)
    (pci_dev : PciDev) (sensor_idx : Nat) : Ptr × List Event :=
  match hid_allocate_device env with
  | Ptr.errPtr _ =>
      (Ptr.null, [Event.hidAllocate false,
                  Event.pciErr "Failed to allocate HID device!"])
  | Ptr.null =>
      -- unreachable: `hid_allocate_device` returns an error pointer on
      -- failure, never NULL, and `IS_ERR NULL` is false
      (Ptr.null, [])
  | Ptr.valid hid0 =>
      let hid1 : HidDevice :=
        { hid0 with
          bus := BUS_I2C
          group := HID_GROUP_SENSOR_HUB
          vendor := AMD_SFH_HID_VENDOR
          product := AMD_SFH_HID_PRODUCT
          version := AMD_SFH_HID_VERSION
          hid_type := HID_TYPE_OTHER
          ll_driver_set := true }
      let name := amd_sfh_get_sensor_name sensor_idx
      let c1 := strscpy nameSize name
      let hid2 : HidDevice := { hid1 with name := c1.1 }
      let warn1 : List Event :=
        if size_t_ge c1.2 nameSize
        then [Event.hidWarn "Could not set HID device name."] else []
      let c2 := strscpy physSize AMD_SFH_PHY_DEV
      let hid3 : HidDevice := { hid2 with phys := c2.1 }
      let warn2 : List Event :=
        if size_t_ge c2.2 physSize
        then [Event.hidWarn "Could not set HID device location."] else []
      let tr0 : List Event := Event.hidAllocate true :: (warn1 ++ warn2)
      if env.hidDataAllocOk = false then
        (Ptr.null, tr0 ++ [Event.devmAlloc false,
                           Event.hidDestroy (Ptr.valid hid3)])
      else
        let rc := env.descriptorSize
        if rc < 0 then
          (Ptr.null, tr0 ++ [Event.devmAlloc true, Event.getDescSize rc,
                             Event.hidErr "Failed to get input descriptor size!",
                             Event.hidDestroy (Ptr.valid hid3)])
        else
          if env.reportBufAllocOk = false then
            (Ptr.null, tr0 ++ [Event.devmAlloc true, Event.getDescSize rc,
                               Event.devmAlloc false,
                               Event.hidErr "Failed to allocate memory for report buffer!",
                               Event.hidDestroy (Ptr.valid hid3)])
          else
            let hidData : HidData :=
              { sensor_idx := sensor_idx, pci_dev := pci_dev, cpu_addr := none
                report_size := rc.toNat
                report_buf := List.replicate rc.toNat 0 }
            let hid4 : HidDevice := { hid3 with driver_data := some hidData }
            if env.addDeviceRc = 0 then
              (Ptr.valid hid4,
               tr0 ++ [Event.devmAlloc true, Event.getDescSize rc,
                       Event.devmAlloc true, Event.hidAdd 0])
            else
              (Ptr.null,
               tr0 ++ [Event.devmAlloc true, Event.getDescSize rc,
                       Event.devmAlloc true, Event.hidAdd env.addDeviceRc,
                       Event.hidErr "Failed to add HID device.",
                       Event.hidDestroy (Ptr.valid hid4)])

/-- All five external calls of one probe run succeed. -/
def probeSucceeds (env : ProbeEnv) : Bool :=
  env.hidAllocOk && env.hidDataAllocOk && !(decide (env.descriptorSize < 0))
    && env.reportBufAllocOk && (decide (env.addDeviceRc = 0))

/-- `amd_sfh_client_init` (`amd-sfh-client.c` lines 136-164).  The sensor
mask read from the external bus collaborator (`amd_sfh_get_sensor_mask`)
and the per-kind outcomes of the external calls (`envOf`) are parameters.
The four registry slots are written in order (`sensors[i++]`), each set to
the probe result when the kind's mask bit is set and to NULL otherwise. -/
def amd_sfh_client_init (envOf : Nat → ProbeEnv) (sensor_mask : Nat)
    (privdata : AmdSfhData) : AmdSfhData × List Event :=
  let pci_dev := privdata.pci_dev
  let p0 : Ptr × List Event :=
    if sensor_mask &&& ACCEL_MASK ≠ 0 then
      amd_sfh_hid_probe HID_NAME_SIZE HID_PHYS_SIZE (envOf ACCEL_IDX) pci_dev ACCEL_IDX
    else (Ptr.null, [])
  let p1 : Ptr × List Event :=
    if sensor_mask &&& GYRO_MASK ≠ 0 then
      amd_sfh_hid_probe HID_NAME_SIZE HID_PHYS_SIZE (envOf GYRO_IDX) pci_dev GYRO_IDX
    else (Ptr.null, [])
  let p2 : Ptr × List Event :=
    if sensor_mask &&& MAGNO_MASK ≠ 0 then
      amd_sfh_hid_probe HID_NAME_SIZE HID_PHYS_SIZE (envOf MAG_IDX) pci_dev MAG_IDX
    else (Ptr.null, [])
  let p3 : Ptr × List Event :=
    if sensor_mask &&& ALS_MASK ≠ 0 then
      amd_sfh_hid_probe HID_NAME_SIZE HID_PHYS_SIZE (envOf ALS_IDX) pci_dev ALS_IDX
    else (Ptr.null, [])
  ({ privdata with sensors := [p0.1, p1.1, p2.1, p3.1] },
   p0.2 ++ p1.2 ++ p2.2 ++ p3.2)

/-- The loop body of `amd_sfh_client_deinit` (`amd-sfh-client.c` lines
176-181), one recursive step per slot index: a non-NULL slot (the C
truthiness test) is passed to `hid_destroy_device`, then the slot is set to
NULL. -/
def deinitLoop : List Ptr → List Ptr × List Event
  | [] => ([], [])
  | s :: rest =>
      let r := deinitLoop rest
      if s = Ptr.null then (Ptr.null :: r.1, r.2)
      else (Ptr.null :: r.1, Event.hidDestroy s :: r.2)

/-- `amd_sfh_client_deinit` (`amd-sfh-client.c` lines 172-182): walk the
registry (whose length is `AMD_SFH_MAX_SENSORS` by the registry invariant),
destroying every present device and clearing every slot. -/
def amd_sfh_client_deinit (privdata : AmdSfhData) : AmdSfhData × List Event :=
  let r := deinitLoop privdata.sensors
  ({ privdata with sensors := r.1 }, r.2)

/-- Number of successful `hid_allocate_device` calls in a trace. -/
def hidAllocCount (tr : List Event) : Nat :=
  (tr.filter fun e => match e with
    | Event.hidAllocate true => true
    | _ => false).length

/-- Number of `hid_destroy_device` calls in a trace. -/
def destroyCount (tr : List Event) : Nat :=
  (tr.filter fun e => match e with
    | Event.hidDestroy _ => true
    | _ => false).length

/-- Number of successful `devm_kzalloc` calls in a trace. -/
def devmAllocCount (tr : List Event) : Nat :=
  (tr.filter fun e => match e with
    | Event.devmAlloc true => true
    | _ => false).length

/-- Live (allocated but not yet released) resources after a trace: the HID
devices still alive, plus the device-managed allocations, which are
released automatically when their owning device is destroyed. -/
def liveResources (tr : List Event) : Nat :=
  (hidAllocCount tr - destroyCount tr) +
    (if destroyCount tr = 0 then devmAllocCount tr else 0)

/-- Whether a pointer is a live device (a Present registry slot). -/
def isValid : Ptr → Bool
  | Ptr.valid _ => true
  | _ => false

/-- The four sensor kinds in catalog (slot) order. -/
def sensorKinds : List Nat := [ACCEL_IDX, GYRO_IDX, MAG_IDX, ALS_IDX]

/-- The four mask bits in catalog (slot) order. -/
def sensorMasks : List Nat := [ACCEL_MASK, GYRO_MASK, MAGNO_MASK, ALS_MASK]

/-- The registry at hardware-unit attach time: every slot absent. -/
def emptyRegistry : List Ptr := List.replicate AMD_SFH_MAX_SENSORS Ptr.null

/-- The admissible per-slot transitions of the spec's state machine:
create-succeeds, stay-absent (bit unset or create fails), destroy. -/
inductive SlotTrans : Ptr → Ptr → Prop where
  | createOk (d : HidDevice) : SlotTrans Ptr.null (Ptr.valid d)
  | stayAbsent : SlotTrans Ptr.null Ptr.null
  | destroy (d : HidDevice) : SlotTrans (Ptr.valid d) Ptr.null

/-- Registry states reached by `n` successive deinit calls. -/
def deinitStates (d : AmdSfhData) : Nat → List (List Ptr)
  | 0 => []
  | Nat.succ n =>
      let d1 := (amd_sfh_client_deinit d).1
      d1.sensors :: deinitStates d1 n

/-- The registry trajectory of one lifecycle: the empty registry at attach
time, the state after one `init`, and the states after `n` further
`deinit` calls (double-init is excluded, as the source leaves it
undefined). -/
def lifecycleStates (envOf : Nat → ProbeEnv) (sensor_mask : Nat)
    (pci : PciDev) (n : Nat) : List (List Ptr) :=
  let d0 : AmdSfhData := { pci_dev := pci, sensors := emptyRegistry }
  let d1 := (amd_sfh_client_init envOf sensor_mask d0).1
  d0.sensors :: d1.sensors :: deinitStates d1 n

/-- The device a fully successful probe run registers and returns: fixed
identity constants, the (possibly truncated) catalog name and location, and
driver data holding kind, unit back-reference and a zeroed report buffer of
the descriptor-provided size. -/
def builtDevice (nameSize physSize : Nat) (env : ProbeEnv)
    (pci_dev : PciDev) (sensor_idx : Nat) : HidDevice :=
  { bus := BUS_I2C
    group := HID_GROUP_SENSOR_HUB
    vendor := AMD_SFH_HID_VENDOR
    product := AMD_SFH_HID_PRODUCT
    version := AMD_SFH_HID_VERSION
    hid_type := HID_TYPE_OTHER
    ll_driver_set := true
    name := (strscpy nameSize (amd_sfh_get_sensor_name sensor_idx)).1
    phys := (strscpy physSize AMD_SFH_PHY_DEV).1
    driver_data := some
      { sensor_idx := sensor_idx, pci_dev := pci_dev, cpu_addr := none
        report_size := env.descriptorSize.toNat
        report_buf := List.replicate env.descriptorSize.toNat 0 } }

theorem amd_sfh_hid_probe_fst (nameSize physSize : Nat) (env : ProbeEnv)
    (pci : PciDev) (k : Nat) :
    (amd_sfh_hid_probe nameSize physSize env pci k).1 =
      if probeSucceeds env = true
      then Ptr.valid (builtDevice nameSize physSize env pci k)
      else Ptr.null := by
  cases hA : env.hidAllocOk <;> cases hD : env.hidDataAllocOk <;>
    cases hB : env.reportBufAllocOk <;>
    by_cases hS : env.descriptorSize < 0 <;>
    by_cases hR : env.addDeviceRc = 0 <;>
    simp [amd_sfh_hid_probe, hid_allocate_device, probeSucceeds, builtDevice,
      freshHidDevice, hA, hD, hB, hS, hR]

/-- The value `amd_sfh_client_init` stores in the slot guarded by mask bit
`m` for kind `k`: the probe result when the bit is set, NULL otherwise. -/
def initSlot (envOf : Nat → ProbeEnv) (mask : Nat) (pci : PciDev)
    (k m : Nat) : Ptr :=
  if mask &&& m ≠ 0
  then (amd_sfh_hid_probe HID_NAME_SIZE HID_PHYS_SIZE (envOf k) pci k).1
  else Ptr.null

theorem amd_sfh_client_init_sensors (envOf : Nat → ProbeEnv)
    (mask : Nat) (privdata : AmdSfhData) :
    (amd_sfh_client_init envOf mask privdata).1.sensors =
      [initSlot envOf mask privdata.pci_dev ACCEL_IDX ACCEL_MASK,
       initSlot envOf mask privdata.pci_dev GYRO_IDX GYRO_MASK,
       initSlot envOf mask privdata.pci_dev MAG_IDX MAGNO_MASK,
       initSlot envOf mask privdata.pci_dev ALS_IDX ALS_MASK] := by
  simp only [amd_sfh_client_init, initSlot]
  split_ifs <;> rfl

theorem deinitLoop_fst (s : List Ptr) :
    (deinitLoop s).1 = List.replicate s.length Ptr.null := by
  induction s with
  | nil => rfl
  | cons a rest ih =>
      by_cases h : a = Ptr.null <;>
        simp [deinitLoop, h, ih, List.replicate_succ]

theorem deinitLoop_snd (s : List Ptr) :
    (deinitLoop s).2 =
      (s.filter fun x => decide (x ≠ Ptr.null)).map Event.hidDestroy := by
  induction s with
  | nil => rfl
  | cons a rest ih =>
      by_cases h : a = Ptr.null <;> simp [deinitLoop, h, ih]

theorem initSlot_isValid_iff (envOf : Nat → ProbeEnv) (mask : Nat)
    (pci : PciDev) (k m : Nat) :
    isValid (initSlot envOf mask pci k m) = true ↔
      (mask &&& m ≠ 0 ∧ probeSucceeds (envOf k) = true) := by
  unfold initSlot
  by_cases hb : mask &&& m ≠ 0
  · rw [if_pos hb, amd_sfh_hid_probe_fst]
    by_cases hs : probeSucceeds (envOf k) = true
    · simp [hs, isValid, hb]
    · simp [hs, isValid]
  · simp [hb, isValid]

theorem initSlot_null_or_valid (envOf : Nat → ProbeEnv) (mask : Nat)
    (pci : PciDev) (k m : Nat) :
    initSlot envOf mask pci k m = Ptr.null ∨
      ∃ d, initSlot envOf mask pci k m = Ptr.valid d := by
  unfold initSlot
  by_cases hb : mask &&& m ≠ 0
  · rw [if_pos hb, amd_sfh_hid_probe_fst]
    by_cases hs : probeSucceeds (envOf k) = true <;> simp [hs]
  · simp [hb]

theorem initSlot_eq_null_of_fail (envOf : Nat → ProbeEnv) (mask : Nat)
    (pci : PciDev) (k m : Nat) (h : probeSucceeds (envOf k) = false) :
    initSlot envOf mask pci k m = Ptr.null := by
  unfold initSlot
  rw [amd_sfh_hid_probe_fst]
  simp [h]

theorem initSlot_congr_mask (envOf : Nat → ProbeEnv) (mask maskU : Nat)
    (pci : PciDev) (k m : Nat) (h : mask &&& m = maskU &&& m) :
    initSlot envOf mask pci k m = initSlot envOf maskU pci k m := by
  unfold initSlot
  rw [h]

theorem initSlot_eq_null_of_not_valid (envOf : Nat → ProbeEnv) (mask : Nat)
    (pci : PciDev) (k m : Nat)
    (h : isValid (initSlot envOf mask pci k m) = false) :
    initSlot envOf mask pci k m = Ptr.null := by
  rcases initSlot_null_or_valid envOf mask pci k m with h0 | ⟨d, hd⟩
  · exact h0
  · rw [hd] at h
    simp [isValid] at h

/-- Claim C1 — mask fidelity: after `init`, the slot of each of the four
sensor kinds is Present iff its mask bit was set and its probe succeeded;
otherwise the slot is Absent (NULL). -/
theorem C1_mask_fidelity (envOf : Nat → ProbeEnv) (mask : Nat)
    (privdata : AmdSfhData) (i : Nat) (hi : i < AMD_SFH_MAX_SENSORS) :
    (isValid ((amd_sfh_client_init envOf mask privdata).1.sensors.getD i Ptr.null) = true ↔
      (mask &&& sensorMasks.getD i 0 ≠ 0 ∧
        probeSucceeds (envOf (sensorKinds.getD i 0)) = true)) ∧
    (isValid ((amd_sfh_client_init envOf mask privdata).1.sensors.getD i Ptr.null) = false →
      (amd_sfh_client_init envOf mask privdata).1.sensors.getD i Ptr.null = Ptr.null) := by
  simp only [amd_sfh_client_init_sensors]
  have hi4 : i < 4 := hi
  interval_cases i <;>
    simp only [List.getD_cons_zero, List.getD_cons_succ, sensorKinds,
      sensorMasks] <;>
    exact ⟨initSlot_isValid_iff _ _ _ _ _,
           initSlot_eq_null_of_not_valid _ _ _ _ _⟩

/-- Sample environment in which every external call succeeds and the
descriptor provider reports an 8-byte input report. -/
def envAllGood : ProbeEnv :=
  { hidAllocOk := true, hidDataAllocOk := true, descriptorSize := 8
    reportBufAllocOk := true, addDeviceRc := 0 }

/-- Sample PCI device. -/
def pciSample : PciDev := { devId := 0 }

/-- Sample driver data: the sample PCI device with an empty registry. -/
def dataSample : AmdSfhData := { pci_dev := pciSample, sensors := emptyRegistry }

theorem C1_mask_fidelity_witness :
    (0 < AMD_SFH_MAX_SENSORS) ∧
    ((isValid ((amd_sfh_client_init (fun _ => envAllGood) ACCEL_MASK
        dataSample).1.sensors.getD 0 Ptr.null) = true ↔
      (ACCEL_MASK &&& sensorMasks.getD 0 0 ≠ 0 ∧
        probeSucceeds ((fun _ => envAllGood) (sensorKinds.getD 0 0)) = true)) ∧
     (isValid ((amd_sfh_client_init (fun _ => envAllGood) ACCEL_MASK
        dataSample).1.sensors.getD 0 Ptr.null) = false →
      (amd_sfh_client_init (fun _ => envAllGood) ACCEL_MASK
        dataSample).1.sensors.getD 0 Ptr.null = Ptr.null)) :=
  ⟨by decide, C1_mask_fidelity (fun _ => envAllGood) ACCEL_MASK dataSample 0 (by decide)⟩

theorem init_getD_null_or_valid (envOf : Nat → ProbeEnv) (mask : Nat)
    (privdata : AmdSfhData) (i : Nat) :
    (amd_sfh_client_init envOf mask privdata).1.sensors.getD i Ptr.null = Ptr.null ∨
      ∃ d, (amd_sfh_client_init envOf mask privdata).1.sensors.getD i Ptr.null
            = Ptr.valid d := by
  simp only [amd_sfh_client_init_sensors]
  by_cases hi : i < 4
  · interval_cases i <;>
      simp only [List.getD_cons_zero, List.getD_cons_succ] <;>
      exact initSlot_null_or_valid _ _ _ _ _
  · left
    apply List.getD_eq_default
    simp only [List.length_cons, List.length_nil]
    omega

/-- Claim C3 — partial-failure isolation: if the probe for the kind at slot
`i` fails, that slot is stored as NULL, the whole registry is still
populated (all four slots written, no unit-wide abort), and every other
slot equals what `init` produces under a mask whose bit for slot `i` is
unset. -/
theorem C3_partial_failure_isolation (envOf : Nat → ProbeEnv)
    (mask maskU : Nat) (privdata : AmdSfhData) (i : Nat)
    (hi : i < AMD_SFH_MAX_SENSORS)
    (hfail : probeSucceeds (envOf (sensorKinds.getD i 0)) = false)
    (hunset : maskU &&& sensorMasks.getD i 0 = 0)
    (hagree : ∀ j, j < AMD_SFH_MAX_SENSORS → j ≠ i →
      mask &&& sensorMasks.getD j 0 = maskU &&& sensorMasks.getD j 0) :
    (amd_sfh_client_init envOf mask privdata).1.sensors.getD i Ptr.null = Ptr.null ∧
    (amd_sfh_client_init envOf mask privdata).1.sensors.length = AMD_SFH_MAX_SENSORS ∧
    ∀ j, j < AMD_SFH_MAX_SENSORS → j ≠ i →
      (amd_sfh_client_init envOf mask privdata).1.sensors.getD j Ptr.null =
        (amd_sfh_client_init envOf maskU privdata).1.sensors.getD j Ptr.null := by
  simp only [amd_sfh_client_init_sensors]
  have hi4 : i < 4 := hi
  refine ⟨?_, rfl, ?_⟩
  · interval_cases i <;>
      simp only [List.getD_cons_zero, List.getD_cons_succ] <;>
      exact initSlot_eq_null_of_fail _ _ _ _ _
        (by simpa [sensorKinds] using hfail)
  · intro j hj hne
    have hj4 : j < 4 := hj
    have h := hagree j hj hne
    interval_cases j <;>
      simp only [List.getD_cons_zero, List.getD_cons_succ] <;>
      exact initSlot_congr_mask _ _ _ _ _ _ (by simpa [sensorMasks] using h)

/-- Environment in which the very first external call
(`hid_allocate_device`) fails. -/
def envFailAlloc : ProbeEnv :=
  { hidAllocOk := false, hidDataAllocOk := true, descriptorSize := 8
    reportBufAllocOk := true, addDeviceRc := 0 }

/-- Per-kind environment failing exactly for the accelerometer. -/
def envOfFailAccel : Nat → ProbeEnv :=
  fun k => if k = ACCEL_IDX then envFailAlloc else envAllGood

theorem C3_partial_failure_isolation_witness :
    (0 < AMD_SFH_MAX_SENSORS) ∧
    (probeSucceeds (envOfFailAccel (sensorKinds.getD 0 0)) = false) ∧
    (GYRO_MASK &&& sensorMasks.getD 0 0 = 0) ∧
    ((amd_sfh_client_init envOfFailAccel (ACCEL_MASK ||| GYRO_MASK)
        dataSample).1.sensors.getD 0 Ptr.null = Ptr.null ∧
     (amd_sfh_client_init envOfFailAccel (ACCEL_MASK ||| GYRO_MASK)
        dataSample).1.sensors.length = AMD_SFH_MAX_SENSORS ∧
     ∀ j, j < AMD_SFH_MAX_SENSORS → j ≠ 0 →
       (amd_sfh_client_init envOfFailAccel (ACCEL_MASK ||| GYRO_MASK)
          dataSample).1.sensors.getD j Ptr.null =
         (amd_sfh_client_init envOfFailAccel GYRO_MASK
            dataSample).1.sensors.getD j Ptr.null) :=
  ⟨by decide, by decide, by decide,
   C3_partial_failure_isolation envOfFailAccel (ACCEL_MASK ||| GYRO_MASK)
     GYRO_MASK dataSample 0 (by decide) (by decide) (by decide) (by decide)⟩

/-- Claim C10 — on every failure path `amd_sfh_hid_probe` returns plain
NULL (the error-encoded pointer from a failed `hid_allocate_device` is
never propagated), every registry slot written by `init` is NULL or a
pointer to a successfully registered device, and deinit's truthiness test
(slot non-NULL) coincides with genuine presence. -/
theorem C10_null_or_registered (nameSize physSize : Nat) (env : ProbeEnv)
    (pci : PciDev) (k : Nat) (envOf : Nat → ProbeEnv) (mask : Nat)
    (privdata : AmdSfhData) (i : Nat) :
    ((amd_sfh_hid_probe nameSize physSize env pci k).1 = Ptr.null ∨
      ∃ d, (amd_sfh_hid_probe nameSize physSize env pci k).1 = Ptr.valid d ∧
        probeSucceeds env = true) ∧
    (env.hidAllocOk = false →
      IS_ERR (hid_allocate_device env) = true ∧
      (amd_sfh_hid_probe nameSize physSize env pci k).1 = Ptr.null) ∧
    ((amd_sfh_client_init envOf mask privdata).1.sensors.getD i Ptr.null = Ptr.null ∨
      ∃ d, (amd_sfh_client_init envOf mask privdata).1.sensors.getD i Ptr.null
            = Ptr.valid d) ∧
    ((amd_sfh_client_init envOf mask privdata).1.sensors.getD i Ptr.null ≠ Ptr.null ↔
      isValid ((amd_sfh_client_init envOf mask privdata).1.sensors.getD i Ptr.null)
        = true) := by
  refine ⟨?_, ?_, init_getD_null_or_valid envOf mask privdata i, ?_⟩
  · rw [amd_sfh_hid_probe_fst]
    by_cases hs : probeSucceeds env = true
    · exact Or.inr ⟨builtDevice nameSize physSize env pci k, by simp [hs], hs⟩
    · simp [hs]
  · intro hA
    have hs : probeSucceeds env = false := by simp [probeSucceeds, hA]
    constructor
    · simp [hid_allocate_device, hA, IS_ERR]
    · rw [amd_sfh_hid_probe_fst, hs]
      simp
  · rcases init_getD_null_or_valid envOf mask privdata i with h | ⟨d, hd⟩
    · rw [h]
      simp [isValid]
    · rw [hd]
      simp [isValid]

theorem C10_null_or_registered_witness :
    (envFailAlloc.hidAllocOk = false) ∧
    (IS_ERR (hid_allocate_device envFailAlloc) = true ∧
      (amd_sfh_hid_probe HID_NAME_SIZE HID_PHYS_SIZE envFailAlloc pciSample
        ACCEL_IDX).1 = Ptr.null) :=
  ⟨by decide,
   (C10_null_or_registered HID_NAME_SIZE HID_PHYS_SIZE envFailAlloc pciSample
      ACCEL_IDX (fun _ => envAllGood) ACCEL_MASK dataSample 0).2.1 (by decide)⟩

/-- Claim C8 — the catalog name lookup is total: each known kind maps to
its human-readable name, every other index maps to the fallback label
"unknown sensor type". -/
theorem C8_catalog_total :
    amd_sfh_get_sensor_name ACCEL_IDX = "accelerometer" ∧
    amd_sfh_get_sensor_name GYRO_IDX = "gyroscope" ∧
    amd_sfh_get_sensor_name MAG_IDX = "magnetometer" ∧
    amd_sfh_get_sensor_name ALS_IDX = "ambient light sensor" ∧
    ∀ k : Nat, k ∉ sensorKinds →
      amd_sfh_get_sensor_name k = "unknown sensor type" := by
  refine ⟨rfl, rfl, rfl, rfl, fun k hk => ?_⟩
  simp only [sensorKinds, List.mem_cons, List.not_mem_nil, or_false] at hk
  push_neg at hk
  obtain ⟨h0, h1, h2, h3⟩ := hk
  simp [amd_sfh_get_sensor_name, h0, h1, h2, h3]

theorem C8_catalog_total_witness :
    (5 ∉ sensorKinds) ∧ amd_sfh_get_sensor_name 5 = "unknown sensor type" :=
  ⟨by decide, C8_catalog_total.2.2.2.2 5 (by decide)⟩

theorem filter_ne_null_replicate (n : Nat) :
    (List.replicate n Ptr.null).filter (fun x => decide (x ≠ Ptr.null)) = [] := by
  induction n with
  | zero => rfl
  | succ n ih => simp [List.replicate_succ, ih]

theorem getD_replicate_null (n i : Nat) :
    (List.replicate n Ptr.null).getD i Ptr.null = Ptr.null := by
  induction n generalizing i with
  | zero => cases i <;> rfl
  | succ n ih =>
      cases i with
      | zero => rfl
      | succ i => simp [List.replicate_succ, List.getD_cons_succ, ih]

/-- Claim C4 — teardown: `deinit` clears every slot (visiting each exactly
once), destroys exactly the present devices in slot order, and is
idempotent: a second call performs zero destructions and returns the same
fully-absent state. -/
theorem C4_deinit_idempotent (d : AmdSfhData) :
    (amd_sfh_client_deinit d).1.sensors = List.replicate d.sensors.length Ptr.null ∧
    (amd_sfh_client_deinit d).2 =
      (d.sensors.filter fun x => decide (x ≠ Ptr.null)).map Event.hidDestroy ∧
    (amd_sfh_client_deinit (amd_sfh_client_deinit d).1).1 = (amd_sfh_client_deinit d).1 ∧
    (amd_sfh_client_deinit (amd_sfh_client_deinit d).1).2 = [] := by
  refine ⟨?_, ?_, ?_, ?_⟩
  · simp [amd_sfh_client_deinit, deinitLoop_fst]
  · simp [amd_sfh_client_deinit, deinitLoop_snd]
  · simp [amd_sfh_client_deinit, deinitLoop_fst]
  · simp [amd_sfh_client_deinit, deinitLoop_snd, deinitLoop_fst,
      filter_ne_null_replicate]

theorem deinitStates_chain (d : AmdSfhData)
    (hd : ∀ i, d.sensors.getD i Ptr.null = Ptr.null ∨
      ∃ dev, d.sensors.getD i Ptr.null = Ptr.valid dev) (n : Nat) :
    List.Chain'
      (fun s t => ∀ i : Nat, SlotTrans (s.getD i Ptr.null) (t.getD i Ptr.null))
      (d.sensors :: deinitStates d n) := by
  induction n generalizing d with
  | zero => simp [deinitStates]
  | succ n ih =>
      simp only [deinitStates]
      rw [List.chain'_cons]
      constructor
      · intro i
        have h1 : (amd_sfh_client_deinit d).1.sensors.getD i Ptr.null = Ptr.null := by
          simp [amd_sfh_client_deinit, deinitLoop_fst, getD_replicate_null]
        rw [h1]
        rcases hd i with h | ⟨dev, h⟩ <;> rw [h]
        · exact SlotTrans.stayAbsent
        · exact SlotTrans.destroy dev
      · exact ih (amd_sfh_client_deinit d).1 fun i =>
          Or.inl (by simp [amd_sfh_client_deinit, deinitLoop_fst, getD_replicate_null])

/-- Claim C5 — per-slot state machine: along the trajectory of one `init`
from the empty registry followed by any number of `deinit` calls
(double-init excluded as undefined), every slot only makes the transitions
Absent→Present (create succeeds), Absent→Absent, and Present→Absent
(destroy); in particular a Present slot is never overwritten by another
Present value. -/
theorem C5_slot_state_machine (envOf : Nat → ProbeEnv) (mask : Nat)
    (pci : PciDev) (n : Nat) :
    List.Chain'
      (fun s t => ∀ i : Nat, SlotTrans (s.getD i Ptr.null) (t.getD i Ptr.null))
      (lifecycleStates envOf mask pci n) := by
  simp only [lifecycleStates]
  rw [List.chain'_cons]
  constructor
  · intro i
    have h0 : emptyRegistry.getD i Ptr.null = Ptr.null := getD_replicate_null _ _
    rcases init_getD_null_or_valid envOf mask ⟨pci, emptyRegistry⟩ i with h | ⟨dev, h⟩
    · rw [h0, h]
      exact SlotTrans.stayAbsent
    · rw [h0, h]
      exact SlotTrans.createOk dev
  · exact deinitStates_chain _ (init_getD_null_or_valid envOf mask ⟨pci, emptyRegistry⟩) n

theorem hidAllocCount_append (a b : List Event) :
    hidAllocCount (a ++ b) = hidAllocCount a + hidAllocCount b := by
  simp [hidAllocCount, List.filter_append]

theorem destroyCount_append (a b : List Event) :
    destroyCount (a ++ b) = destroyCount a + destroyCount b := by
  simp [destroyCount, List.filter_append]

theorem devmAllocCount_append (a b : List Event) :
    devmAllocCount (a ++ b) = devmAllocCount a + devmAllocCount b := by
  simp [devmAllocCount, List.filter_append]

theorem hidAllocCount_warn (c : Prop) [Decidable c] (s : String) :
    hidAllocCount (if c then [Event.hidWarn s] else []) = 0 := by
  split <;> rfl

theorem destroyCount_warn (c : Prop) [Decidable c] (s : String) :
    destroyCount (if c then [Event.hidWarn s] else []) = 0 := by
  split <;> rfl

theorem devmAllocCount_warn (c : Prop) [Decidable c] (s : String) :
    devmAllocCount (if c then [Event.hidWarn s] else []) = 0 := by
  split <;> rfl

/-- Claim C2 — no leak on failure: whenever any external step of
`amd_sfh_hid_probe` fails, the function returns NULL, every identity
record it allocated is destroyed exactly once (destroy count equals
allocation count, at most one), and no resource — identity record or
device-managed allocation — stays live. -/
theorem C2_no_leak_on_failure (nameSize physSize : Nat) (env : ProbeEnv)
    (pci : PciDev) (k : Nat) (hfail : probeSucceeds env = false) :
    (amd_sfh_hid_probe nameSize physSize env pci k).1 = Ptr.null ∧
    destroyCount (amd_sfh_hid_probe nameSize physSize env pci k).2 =
      hidAllocCount (amd_sfh_hid_probe nameSize physSize env pci k).2 ∧
    hidAllocCount (amd_sfh_hid_probe nameSize physSize env pci k).2 ≤ 1 ∧
    liveResources (amd_sfh_hid_probe nameSize physSize env pci k).2 = 0 := by
  have h1 : (amd_sfh_hid_probe nameSize physSize env pci k).1 = Ptr.null := by
    rw [amd_sfh_hid_probe_fst, hfail]
    simp
  refine ⟨h1, ?_⟩
  cases hA : env.hidAllocOk <;> cases hD : env.hidDataAllocOk <;>
    cases hB : env.reportBufAllocOk <;>
    by_cases hS : env.descriptorSize < 0 <;>
    by_cases hR : env.addDeviceRc = 0 <;>
    (try simp [probeSucceeds, hA, hD, hB, hS, hR] at hfail) <;>
    simp [amd_sfh_hid_probe, hid_allocate_device, hA, hD, hB, hS, hR,
      liveResources, List.cons_append, List.append_assoc,
      hidAllocCount_append, destroyCount_append, devmAllocCount_append,
      hidAllocCount_warn, destroyCount_warn, devmAllocCount_warn,
      hidAllocCount, destroyCount, devmAllocCount] <;>
    split_ifs <;> simp_all

/-- Environment in which the `devm_kzalloc` for the driver data fails. -/
def envFailHidData : ProbeEnv :=
  { hidAllocOk := true, hidDataAllocOk := false, descriptorSize := 8
    reportBufAllocOk := true, addDeviceRc := 0 }

theorem C2_no_leak_on_failure_witness :
    (probeSucceeds envFailHidData = false) ∧
    ((amd_sfh_hid_probe HID_NAME_SIZE HID_PHYS_SIZE envFailHidData pciSample
        ACCEL_IDX).1 = Ptr.null ∧
     destroyCount (amd_sfh_hid_probe HID_NAME_SIZE HID_PHYS_SIZE envFailHidData
        pciSample ACCEL_IDX).2 =
       hidAllocCount (amd_sfh_hid_probe HID_NAME_SIZE HID_PHYS_SIZE envFailHidData
        pciSample ACCEL_IDX).2 ∧
     hidAllocCount (amd_sfh_hid_probe HID_NAME_SIZE HID_PHYS_SIZE envFailHidData
        pciSample ACCEL_IDX).2 ≤ 1 ∧
     liveResources (amd_sfh_hid_probe HID_NAME_SIZE HID_PHYS_SIZE envFailHidData
        pciSample ACCEL_IDX).2 = 0) :=
  ⟨by decide,
   C2_no_leak_on_failure HID_NAME_SIZE HID_PHYS_SIZE envFailHidData pciSample
     ACCEL_IDX (by decide)⟩

theorem name_length_le (k : Nat) : (amd_sfh_get_sensor_name k).length ≤ 20 := by
  unfold amd_sfh_get_sensor_name
  split_ifs <;> decide

theorem name_length_lt_cap (k : Nat) :
    (amd_sfh_get_sensor_name k).length < HID_NAME_SIZE := by
  have h := name_length_le k
  unfold HID_NAME_SIZE
  omega

theorem strscpy_snd_of_trunc (size : Nat) (src : String) (h : size ≤ src.length) :
    (strscpy size src).2 = -7 := by
  unfold strscpy
  split_ifs with h0 h1
  · rfl
  · exact absurd h1 (by omega)
  · rfl

theorem size_t_ge_neg7 (n : Nat) (hn : n ≤ 100) : size_t_ge (-7) n = true := by
  have h : ((-7 : Int) % (2 ^ 64 : Int)).toNat = 18446744073709551609 := by decide
  simp only [size_t_ge, h, decide_eq_true_eq]
  omega

/-- Claim C6 — round-trip identity: a device returned by a successful probe
in the deployed build carries the catalog display name of its kind (the
fallback label for out-of-range kinds) and driver data whose report buffer
is zero-filled with length exactly the descriptor-provided report size. -/
theorem C6_round_trip_identity (env : ProbeEnv) (pci : PciDev) (k : Nat)
    (d : HidDevice)
    (h : (amd_sfh_hid_probe HID_NAME_SIZE HID_PHYS_SIZE env pci k).1 = Ptr.valid d) :
    d.name = amd_sfh_get_sensor_name k ∧
    ∃ data : HidData, d.driver_data = some data ∧
      data.report_size = env.descriptorSize.toNat ∧
      data.report_buf = List.replicate env.descriptorSize.toNat 0 := by
  rw [amd_sfh_hid_probe_fst] at h
  by_cases hs : probeSucceeds env = true
  · rw [if_pos hs] at h
    have hd : builtDevice HID_NAME_SIZE HID_PHYS_SIZE env pci k = d :=
      Ptr.valid.inj h
    subst hd
    refine ⟨?_, ⟨_, rfl, rfl, rfl⟩⟩
    show (strscpy HID_NAME_SIZE (amd_sfh_get_sensor_name k)).1 = _
    have hlen : (amd_sfh_get_sensor_name k).length < 128 := name_length_lt_cap k
    simp [strscpy, HID_NAME_SIZE, hlen]
  · rw [if_neg hs] at h
    cases h

theorem C6_round_trip_identity_witness :
    ((amd_sfh_hid_probe HID_NAME_SIZE HID_PHYS_SIZE envAllGood pciSample
        ACCEL_IDX).1 =
      Ptr.valid (builtDevice HID_NAME_SIZE HID_PHYS_SIZE envAllGood pciSample
        ACCEL_IDX)) ∧
    ((builtDevice HID_NAME_SIZE HID_PHYS_SIZE envAllGood pciSample
        ACCEL_IDX).name = amd_sfh_get_sensor_name ACCEL_IDX ∧
     ∃ data : HidData,
       (builtDevice HID_NAME_SIZE HID_PHYS_SIZE envAllGood pciSample
          ACCEL_IDX).driver_data = some data ∧
       data.report_size = envAllGood.descriptorSize.toNat ∧
       data.report_buf = List.replicate envAllGood.descriptorSize.toNat 0) :=
  ⟨by decide,
   C6_round_trip_identity envAllGood pciSample ACCEL_IDX _ (by decide)⟩

/-- Claim C7 — truncation is non-fatal: once a device identity record
exists, a catalog name or location string that does not fit its field is
truncated and a warning-level diagnostic is emitted, while the outcome of
creation is unchanged (success still tracks only the external calls), and
a successfully created device carries exactly the capped copies. -/
theorem C7_truncation_nonfatal (nameSize physSize : Nat) (env : ProbeEnv)
    (pci : PciDev) (k : Nat) (hA : env.hidAllocOk = true) :
    (nameSize ≤ (amd_sfh_get_sensor_name k).length →
      Event.hidWarn "Could not set HID device name." ∈
        (amd_sfh_hid_probe nameSize physSize env pci k).2) ∧
    (physSize ≤ AMD_SFH_PHY_DEV.length →
      Event.hidWarn "Could not set HID device location." ∈
        (amd_sfh_hid_probe nameSize physSize env pci k).2) ∧
    isValid (amd_sfh_hid_probe nameSize physSize env pci k).1 = probeSucceeds env ∧
    (∀ d, (amd_sfh_hid_probe nameSize physSize env pci k).1 = Ptr.valid d →
      d.name = (strscpy nameSize (amd_sfh_get_sensor_name k)).1 ∧
      d.phys = (strscpy physSize AMD_SFH_PHY_DEV).1) := by
  refine ⟨?_, ?_, ?_, ?_⟩
  · intro htr
    have h2 : (strscpy nameSize (amd_sfh_get_sensor_name k)).2 = -7 :=
      strscpy_snd_of_trunc _ _ htr
    have hle := name_length_le k
    have h3 : size_t_ge (strscpy nameSize (amd_sfh_get_sensor_name k)).2 nameSize
        = true := by
      rw [h2]
      exact size_t_ge_neg7 _ (by omega)
    cases hD : env.hidDataAllocOk <;> by_cases hS : env.descriptorSize < 0 <;>
      cases hB : env.reportBufAllocOk <;> by_cases hR : env.addDeviceRc = 0 <;>
      simp [amd_sfh_hid_probe, hid_allocate_device, hA, hD, hS, hB, hR, h3]
  · intro htr
    have h2 : (strscpy physSize AMD_SFH_PHY_DEV).2 = -7 :=
      strscpy_snd_of_trunc _ _ htr
    have hle : AMD_SFH_PHY_DEV.length = 28 := by decide
    have h3 : size_t_ge (strscpy physSize AMD_SFH_PHY_DEV).2 physSize = true := by
      rw [h2]
      exact size_t_ge_neg7 _ (by omega)
    cases hD : env.hidDataAllocOk <;> by_cases hS : env.descriptorSize < 0 <;>
      cases hB : env.reportBufAllocOk <;> by_cases hR : env.addDeviceRc = 0 <;>
      simp [amd_sfh_hid_probe, hid_allocate_device, hA, hD, hS, hB, hR, h3]
  · rw [amd_sfh_hid_probe_fst]
    by_cases hs : probeSucceeds env = true
    · simp [hs, isValid]
    · rw [if_neg hs]
      simp only [Bool.not_eq_true] at hs
      rw [hs]
      rfl
  · intro d hd
    rw [amd_sfh_hid_probe_fst] at hd
    by_cases hs : probeSucceeds env = true
    · rw [if_pos hs] at hd
      have := Ptr.valid.inj hd
      subst this
      exact ⟨rfl, rfl⟩
    · rw [if_neg hs] at hd
      cases hd

theorem C7_truncation_nonfatal_witness :
    (envAllGood.hidAllocOk = true) ∧
    (4 ≤ (amd_sfh_get_sensor_name ACCEL_IDX).length) ∧
    (4 ≤ AMD_SFH_PHY_DEV.length) ∧
    (Event.hidWarn "Could not set HID device name." ∈
      (amd_sfh_hid_probe 4 4 envAllGood pciSample ACCEL_IDX).2) ∧
    (Event.hidWarn "Could not set HID device location." ∈
      (amd_sfh_hid_probe 4 4 envAllGood pciSample ACCEL_IDX).2) ∧
    isValid (amd_sfh_hid_probe 4 4 envAllGood pciSample ACCEL_IDX).1 =
      probeSucceeds envAllGood :=
  ⟨by decide, by decide, by decide,
   (C7_truncation_nonfatal 4 4 envAllGood pciSample ACCEL_IDX (by decide)).1
     (by decide),
   (C7_truncation_nonfatal 4 4 envAllGood pciSample ACCEL_IDX (by decide)).2.1
     (by decide),
   (C7_truncation_nonfatal 4 4 envAllGood pciSample ACCEL_IDX (by decide)).2.2.1⟩

/-- The sensor mask of the concrete scenario: accelerometer and
ambient-light bits only. -/
def scenarioMask : Nat := ACCEL_MASK ||| ALS_MASK

/-- The registry produced by `init` in the concrete scenario (all external
calls succeed). -/
def scenarioInit : AmdSfhData :=
  (amd_sfh_client_init (fun _ => envAllGood) scenarioMask dataSample).1

/-- Claim C9 — concrete scenario: with mask {Accelerometer, AmbientLight}
and all creations succeeding, `init` leaves those two slots Present and
Gyroscope/Magnetometer Absent; `deinit` clears all four slots and performs
exactly two destructions, accelerometer before ambient-light. -/
theorem C9_concrete_scenario :
    isValid (scenarioInit.sensors.getD 0 Ptr.null) = true ∧
    scenarioInit.sensors.getD 1 Ptr.null = Ptr.null ∧
    scenarioInit.sensors.getD 2 Ptr.null = Ptr.null ∧
    isValid (scenarioInit.sensors.getD 3 Ptr.null) = true ∧
    (amd_sfh_client_deinit scenarioInit).1.sensors =
      [Ptr.null, Ptr.null, Ptr.null, Ptr.null] ∧
    destroyCount (amd_sfh_client_deinit scenarioInit).2 = 2 ∧
    (amd_sfh_client_deinit scenarioInit).2 =
      [Event.hidDestroy (Ptr.valid (builtDevice HID_NAME_SIZE HID_PHYS_SIZE
          envAllGood pciSample ACCEL_IDX)),
       Event.hidDestroy (Ptr.valid (builtDevice HID_NAME_SIZE HID_PHYS_SIZE
          envAllGood pciSample ALS_IDX))] ∧
    (builtDevice HID_NAME_SIZE HID_PHYS_SIZE envAllGood pciSample
      ACCEL_IDX).name = "accelerometer" ∧
    (builtDevice HID_NAME_SIZE HID_PHYS_SIZE envAllGood pciSample
      ALS_IDX).name = "ambient light sensor" := by
  decide

end AmdSfh
